import Mathlib

/-!
Verification development for the UPA dashboard scraper
(`core/parser.py`, `core/scraper.py`, `core/storage.py`, `app.py`).

Text is modelled as `List Char` over the ASCII fragment: the source's
Unicode NFKD accent-folding step in `_norm` is the identity on ASCII, so
it is not represented.  Python regexes are modelled by direct scanning
functions with the same left-to-right, first-match semantics.
-/

namespace Upa

/-- Characters Python's `\s` matches (ASCII fragment). -/
def isWs (c : Char) : Bool :=
  c = ' ' || c = '\t' || c = '\n' || c = '\r' || c = '\x0b' || c = '\x0c'

/-- Characters Python's `\w` matches (ASCII fragment): letters, digits, underscore. -/
def isWordChar (c : Char) : Bool :=
  c.isAlpha || c.isDigit || c = '_'

/-- `str.strip()` on the ASCII fragment: drop leading and trailing whitespace. -/
def stripWs (l : List Char) : List Char :=
  ((l.dropWhile isWs).reverse.dropWhile isWs).reverse

/--
`re.sub(r"\s+", " ", s)`: replace each maximal whitespace run by one
space.  The boolean records whether the previous character was part of a
whitespace run already emitted as a space.
-/
def squeezeWsAux : List Char → Bool → List Char
  | [], _ => []
  | c :: rest, inRun =>
    if isWs c then
      if inRun then squeezeWsAux rest true
      else ' ' :: squeezeWsAux rest true
    else c :: squeezeWsAux rest false

def squeezeWs (l : List Char) : List Char := squeezeWsAux l false

/--
`_norm` from `core/parser.py`: NFKD-decompose and drop combining marks
(identity on the ASCII fragment), uppercase, collapse whitespace runs to a
single space, strip.
-/
def _norm (s : List Char) : List Char :=
  stripWs (squeezeWs (s.map Char.toUpper))

/-- Does `text` start with `pat`? -/
def startsWithL : List Char → List Char → Bool
  | [], _ => true
  | _ :: _, [] => false
  | p :: ps, c :: cs => p = c && startsWithL ps cs

/-- Python's `pat in text` substring test. -/
def hasSub (pat : List Char) : List Char → Bool
  | [] => pat.isEmpty
  | c :: cs => startsWithL pat (c :: cs) || hasSub pat cs

/-- Python's `text.find(pat)`: index of the first occurrence, `none` for `-1`. -/
def findSub (pat : List Char) : List Char → Option Nat
  | [] => if pat.isEmpty then some 0 else none
  | c :: cs =>
    if startsWithL pat (c :: cs) then some 0
    else (findSub pat cs).map (· + 1)

/-- String literal to the `List Char` text representation. -/
def lc (s : String) : List Char := s.toList

/--
`re.sub(r"\d{2}:\d{2}:\d{2}", " ", text)` from `_extract_int_candidates`:
scan left to right, replace each (non-overlapping) 8-character timestamp
match by a single space and resume after it.
-/
def stripTS : List Char → List Char
  | d1 :: d2 :: c1 :: d3 :: d4 :: c2 :: d5 :: d6 :: rest =>
    if d1.isDigit && d2.isDigit && c1 = ':' && d3.isDigit && d4.isDigit &&
        c2 = ':' && d5.isDigit && d6.isDigit then
      ' ' :: stripTS rest
    else d1 :: stripTS (d2 :: c1 :: d3 :: d4 :: c2 :: d5 :: d6 :: rest)
  | c :: rest => c :: stripTS rest
  | [] => []

/--
`re.findall(r"\b\d+\b", text)` (ASCII fragment): maximal digit runs whose
neighbours on both sides are non-word characters (or the ends of the
text), valued as `int()` reads them.  `cur = some v` means the scan is
inside a digit run whose left boundary was a word boundary, with
accumulated value `v`; otherwise the boolean records whether the previous
character was a word character.
-/
def scanTokensAux : List Char → Option Nat → Bool → List Nat
  | [], cur, _ =>
    (match cur with
     | some v => [v]
     | none => [])
  | c :: rest, some v, _ =>
    if c.isDigit then scanTokensAux rest (some (10 * v + (c.toNat - 48))) true
    else if isWordChar c then scanTokensAux rest none true
    else v :: scanTokensAux rest none false
  | c :: rest, none, prevW =>
    if c.isDigit && !prevW then scanTokensAux rest (some (c.toNat - 48)) true
    else scanTokensAux rest none (isWordChar c)

/--
`_extract_int_candidates` from `core/parser.py`: strip `HH:MM:SS`-shaped
substrings, then collect all standalone integer tokens in document order.
-/
def _extract_int_candidates (text : List Char) : List Nat :=
  scanTokensAux (stripTS text) none false

/-- The plausibility filter of `_pick_patient_count`: `0 <= n <= 9999` and not a 2020–2026 year. -/
def plausibleCount (n : Nat) : Bool :=
  n ≤ 9999 && !(n = 2020 || n = 2021 || n = 2022 || n = 2023 ||
                 n = 2024 || n = 2025 || n = 2026)

/--
`_pick_patient_count` from `core/parser.py`: concatenate the integer
candidates of all non-empty argument texts, keep the plausible ones, and
return the first survivor (or `none`).
-/
def _pick_patient_count (texts : List (List Char)) : Option Nat :=
  ((((texts.filter (· ≠ [])).map _extract_int_candidates).flatten).filter plausibleCount).head?

/--
Does the text start with a `\b\d{2}:\d{2}:\d{2}\b` match (the pattern of
`_extract_time`)?  Returns the matched 8 characters.  The right word
boundary requires the following character (if any) to be a non-word
character; the left boundary is checked by the caller.
-/
def tsTokenAt : List Char → Option (List Char)
  | d1 :: d2 :: c1 :: d3 :: d4 :: c2 :: d5 :: d6 :: rest =>
    if d1.isDigit && d2.isDigit && c1 = ':' && d3.isDigit && d4.isDigit &&
        c2 = ':' && d5.isDigit && d6.isDigit &&
        (match rest with | [] => true | r :: _ => !isWordChar r) then
      some [d1, d2, c1, d3, d4, c2, d5, d6]
    else none
  | _ => none

/--
`re.search(r"\b(\d{2}:\d{2}:\d{2})\b", text)`: scan left to right for the
first position with a left word boundary where the timestamp pattern
matches.  The boolean tracks whether the previous character was a word
character.
-/
def scanTime : List Char → Bool → Option (List Char)
  | [], _ => none
  | c :: cs, prevW =>
    if !prevW then
      match tsTokenAt (c :: cs) with
      | some t => some t
      | none => scanTime cs (isWordChar c)
    else scanTime cs (isWordChar c)

/--
`_extract_time` from `core/parser.py`: first `HH:MM:SS` token with word
boundaries, else the literal `IMEDIATO` if the normalized text contains it.
-/
def _extract_time (text : List Char) : Option (List Char) :=
  match scanTime text false with
  | some t => some t
  | none => if hasSub (lc "IMEDIATO") (_norm text) then some (lc "IMEDIATO") else none

/--
After the literal `ATUALIZADO EM`, match `\s+(\d{2}/\d{2}/\d{4}\s+\d{2}:\d{2}:\d{2})`
and return the capture group (date, the inner whitespace as matched, time).
-/
def matchUpdatedAt (l : List Char) : Option (List Char) :=
  if (l.takeWhile isWs).isEmpty then none
  else
    match l.dropWhile isWs with
    | a :: b :: s1 :: c :: d :: s2 :: e :: f :: g :: h :: rest =>
      if a.isDigit && b.isDigit && s1 = '/' && c.isDigit && d.isDigit &&
          s2 = '/' && e.isDigit && f.isDigit && g.isDigit && h.isDigit then
        let ws2 := rest.takeWhile isWs
        if ws2.isEmpty then none
        else
          match rest.dropWhile isWs with
          | p :: q :: s3 :: u :: v :: s4 :: x :: y :: _ =>
            if p.isDigit && q.isDigit && s3 = ':' && u.isDigit && v.isDigit &&
                s4 = ':' && x.isDigit && y.isDigit then
              some ([a, b, s1, c, d, s2, e, f, g, h] ++ ws2 ++ [p, q, s3, u, v, s4, x, y])
            else none
          | _ => none
      else none
    | _ => none

/--
`re.search(r"ATUALIZADO EM\s+(\d{2}/\d{2}/\d{4}\s+\d{2}:\d{2}:\d{2})", t)`:
scan left to right; at each position where the literal matches, try the
rest of the pattern, otherwise keep scanning.
-/
def scanUpdatedAt : List Char → Option (List Char)
  | [] => none
  | c :: cs =>
    if startsWithL (lc "ATUALIZADO EM") (c :: cs) then
      match matchUpdatedAt ((c :: cs).drop 13) with
      | some g => some g
      | none => scanUpdatedAt cs
    else scanUpdatedAt cs

/--
`_extract_updated_at` from `core/parser.py`, applied to the document's
full text (`soup.get_text(" ", strip=True)`), normalized.
-/
def _extract_updated_at (bigText : List Char) : Option (List Char) :=
  scanUpdatedAt (_norm bigText)

/-! ## Parser data model -/

/-- The five category colors, in the order of `COLORS` in `core/parser.py`. -/
inductive Color
  | azul | verde | amarelo | laranja | vermelho
deriving DecidableEq, Repr

/-- Keyword text of a color, as it appears in `COLORS`. -/
def colorStr : Color → List Char
  | .azul => lc "AZUL"
  | .verde => lc "VERDE"
  | .amarelo => lc "AMARELO"
  | .laranja => lc "LARANJA"
  | .vermelho => lc "VERMELHO"

/-- `COLORS` from `core/parser.py`, in source order. -/
def COLORS : List Color := [.azul, .verde, .amarelo, .laranja, .vermelho]

/-- One color's slot: `{"pacientes": ..., "tempo_medio": ...}`. -/
structure ClassInfo where
  pacientes : Option Nat
  tempo_medio : Option (List Char)
deriving DecidableEq, Repr

/-- The parser's result dictionary. -/
structure ParsedMetrics where
  updated_at : Option (List Char)
  pacientes_unidade : Option Nat
  pacientes_regulacao : Option Nat
  pacientes_at_medico : Option Nat
  classificacoes : List (Color × ClassInfo)
deriving DecidableEq, Repr

/-- Dictionary lookup on the `classificacoes` association list. -/
def lookupColor : List (Color × ClassInfo) → Color → Option ClassInfo
  | [], _ => none
  | (c, i) :: rest, c' => if c = c' then some i else lookupColor rest c'

/-- Dictionary update: replace the first binding in place, append if absent. -/
def setColor : List (Color × ClassInfo) → Color → ClassInfo → List (Color × ClassInfo)
  | [], c, i => [(c, i)]
  | (c, i) :: rest, c', i' =>
    if c = c' then (c, i') :: rest else (c, i) :: setColor rest c' i'

/--
A node yielded by `_iter_aria_nodes`: its (stripped, non-empty)
`aria-label` attribute value and its visible text `get_text(" ", strip=True)`.
-/
structure Node where
  aria : List Char
  text : List Char
deriving DecidableEq, Repr

/--
The input document as the parser observes it through BeautifulSoup: the
`[aria-label]` nodes in document order (with raw attribute values, before
stripping) and the full document text.
-/
structure Doc where
  nodes : List Node
  bigText : List Char
deriving DecidableEq, Repr

/-- `_iter_aria_nodes`: keep nodes whose stripped `aria-label` is non-empty. -/
def ariaNodes (nodes : List Node) : List Node :=
  nodes.filterMap fun nd =>
    let a := stripWs nd.aria
    if a = [] then none else some ⟨a, nd.text⟩

/-- Initial `classificacoes` dictionary: every color with both fields null. -/
def initClassif : List (Color × ClassInfo) :=
  COLORS.map fun c => (c, ⟨none, none⟩)

/-- First color whose keyword occurs in the normalized label or text. -/
def findColor (aria etn : List Char) : Option Color :=
  COLORS.find? fun c => hasSub (colorStr c) aria || hasSub (colorStr c) etn

/-- Python `a or b` on optional values. -/
def orOpt (a b : Option (List Char)) : Option (List Char) :=
  match a with
  | some t => some t
  | none => b

/--
The classification section of the per-node loop body
(`core/parser.py` lines 112–135): detect a color, gate on context
keywords, extract time and count, and fill only still-null fields
(the first-non-null guard).
-/
def classifyNode (out : ParsedMetrics) (nd : Node) : ParsedMetrics :=
  let aria := _norm nd.aria
  let etn := _norm nd.text
  match findColor aria etn with
  | none => out
  | some color =>
    let gate := hasSub (lc "CLASSIF") aria || hasSub (lc "CLASSIF") etn ||
      hasSub (lc "RISCO") aria || hasSub (lc "RISCO") etn ||
      hasSub (lc "TEMPO") aria || hasSub (lc "TEMPO") etn ||
      hasSub (lc "PACIENT") aria || hasSub (lc "PACIENT") etn
    if !gate then out
    else
      let tempo := orOpt (_extract_time nd.aria) (orOpt (_extract_time nd.text)
        (orOpt (_extract_time aria) (_extract_time etn)))
      let pacientes := _pick_patient_count [nd.aria, nd.text]
      let prev := (lookupColor out.classificacoes color).getD ⟨none, none⟩
      let prev1 := if prev.pacientes.isNone && pacientes.isSome then
          { prev with pacientes := pacientes } else prev
      let prev2 := if prev1.tempo_medio.isNone && tempo.isSome then
          { prev1 with tempo_medio := tempo } else prev1
      { out with classificacoes := setColor out.classificacoes color prev2 }

/-- First trigger: `"PACIENTES NA UNIDADE" in aria or in el_text_norm`. -/
def trigUnidade (nd : Node) : Bool :=
  hasSub (lc "PACIENTES NA UNIDADE") (_norm nd.aria) ||
    hasSub (lc "PACIENTES NA UNIDADE") (_norm nd.text)

/-- Second trigger: `"AGUARDANDO REGULACAO" in aria or in el_text_norm`. -/
def trigRegulacao (nd : Node) : Bool :=
  hasSub (lc "AGUARDANDO REGULACAO") (_norm nd.aria) ||
    hasSub (lc "AGUARDANDO REGULACAO") (_norm nd.text)

/-- Third trigger: `ATENDIMENTO` and `MEDICO` present, plus the `PACIENT`/`AGUARD` gate. -/
def trigAtMedico (nd : Node) : Bool :=
  let aria := _norm nd.aria
  let etn := _norm nd.text
  ((hasSub (lc "ATENDIMENTO") aria || hasSub (lc "ATENDIMENTO") etn) &&
   (hasSub (lc "MEDICO") aria || hasSub (lc "MEDICO") etn)) &&
  (hasSub (lc "PACIENT") aria || hasSub (lc "PACIENT") etn ||
   hasSub (lc "AGUARD") aria || hasSub (lc "AGUARD") etn)

/--
The body of the main `for el, aria_raw in _iter_aria_nodes(soup)` loop of
`parse_upa_dashboard`: the three scalar-metric branches (each ending in
`continue`), falling through to the classification section otherwise.
A node matching `ATENDIMENTO`+`MEDICO` but failing the inner
`PACIENT`/`AGUARD` gate falls through to the classification section, as in
the source.
-/
def processNode (out : ParsedMetrics) (nd : Node) : ParsedMetrics :=
  if trigUnidade nd then
    { out with pacientes_unidade := _pick_patient_count [nd.aria, nd.text] }
  else if trigRegulacao nd then
    { out with pacientes_regulacao := _pick_patient_count [nd.aria, nd.text] }
  else if trigAtMedico nd then
    { out with pacientes_at_medico := _pick_patient_count [nd.aria, nd.text] }
  else
    classifyNode out nd

/--
The fallback pass body (`core/parser.py` lines 142–151) for one color:
if the color's patient count is still null, find the color name in the
normalized full text, slice a raw-text window `[max(0, idx-120) : idx+220]`
(note: the index comes from the normalized text but slices the raw text,
as in the source), and if the window mentions `CLASSIF`/`RISCO`/`TEMPO`,
assign the window's count (even if null) and keep an existing time.
-/
def fallbackColor (bigText : List Char) (out : ParsedMetrics) (c : Color) : ParsedMetrics :=
  let cur := (lookupColor out.classificacoes c).getD ⟨none, none⟩
  if cur.pacientes.isSome then out
  else
    match findSub (colorStr c) (_norm bigText) with
    | none => out
    | some idx =>
      let lo := idx - 120
      let window := (bigText.drop lo).take (idx + 220 - lo)
      let wn := _norm window
      if hasSub (lc "CLASSIF") wn || hasSub (lc "RISCO") wn || hasSub (lc "TEMPO") wn then
        let cur2 : ClassInfo :=
          ⟨_pick_patient_count [window], orOpt cur.tempo_medio (_extract_time window)⟩
        { out with classificacoes := setColor out.classificacoes c cur2 }
      else out

/--
`parse_upa_dashboard` from `core/parser.py`: initialize the fully-shaped
result, run the per-node loop over all aria-labelled nodes, then the
per-color fallback pass.
-/
def parse_upa_dashboard (doc : Doc) : ParsedMetrics :=
  let init : ParsedMetrics :=
    { updated_at := _extract_updated_at doc.bigText
      pacientes_unidade := none
      pacientes_regulacao := none
      pacientes_at_medico := none
      classificacoes := initClassif }
  let afterNodes := (ariaNodes doc.nodes).foldl processNode init
  COLORS.foldl (fallbackColor doc.bigText) afterNodes

/-! ## DirectHttp fetch (`fetch_html_requests` from `core/scraper.py`)

One loop iteration issues one GET.  The GET either raises (network error)
or yields a response with a status code; `raise_for_status` raises an
HTTP-status error for codes `>= 400`, and that error is caught by the
loop's generic `except` handler, which records it and continues.  The
backoff sleep only spends time, so it is not represented.
-/

/-- An exception as the loop's `except` handler sees it. -/
inductive ExcT
  | net (msg : List Char)
  | httpStatus (code : Nat)
deriving DecidableEq, Repr

/-- Outcome of one `session.get` call. -/
inductive Attempt
  | exc (e : ExcT)
  | resp (status : Nat) (body : List Char)
deriving DecidableEq, Repr

/-- The `last_status` / `last_exc` accumulators of the retry loop. -/
structure ReqState where
  last_status : Nat := 0
  last_exc : Option ExcT := none
deriving DecidableEq, Repr

/-- A successful return of `fetch_html_requests`. -/
structure FetchOk where
  status_code : Nat
  html : List Char
deriving DecidableEq, Repr

/-- The `(429, 503, 502, 504)` membership test of the source. -/
def retryableStatus (code : Nat) : Bool :=
  code = 429 || code = 503 || code = 502 || code = 504

/--
The retry loop of `fetch_html_requests`, over the list of outcomes of the
successive GETs (one consumed per iteration).  An empty list means the
attempts are exhausted: the function raises `RuntimeError` carrying the
last status and last exception (modelled by `Except.error`).
-/
def fetchGo : List Attempt → ReqState → Except ReqState FetchOk
  | [], st => .error st
  | .exc e :: rest, st => fetchGo rest { st with last_exc := some e }
  | .resp code body :: rest, st =>
    let st1 := { st with last_status := code }
    if retryableStatus code then fetchGo rest st1
    else if 400 ≤ code then
      fetchGo rest { st1 with last_exc := some (.httpStatus code) }
    else .ok ⟨code, body⟩

/--
`fetch_html_requests` from `core/scraper.py`: run the loop for at most
`retries` attempts against the environment's GET outcomes.
-/
def fetch_html_requests (attempts : List Attempt) (retries : Nat) : Except ReqState FetchOk :=
  fetchGo (attempts.take retries) {}

/-! ## Cache store (`core/storage.py`)

Two embeddings of the persisted state are used.  `Store α` below is the
WELL-TYPED store: exactly the shapes `set_cached` itself writes (a dict of
dict entries with a numeric `_ts` and a `data` value), plus the `none`
cases for a missing file and a falsy entry.  It backs the set-then-get and
concurrency claims, whose stores are produced by `set_cached`.  Arbitrary
deserialized content — on which the source's `get_cached` can raise — is
modelled separately by `JVal` and `get_cached_json` further below.
Wall-clock time is passed explicitly.
-/

/--
A well-typed persisted cache entry `{"_ts": ..., "data": ...}` as
`set_cached` writes it, fields possibly missing.
-/
structure RawItem (α : Type) where
  ts : Option Int
  data : Option α
deriving DecidableEq, Repr

/--
The well-typed persisted store: a key → value dictionary in insertion
order, an entry value `none` standing for a falsy item (the `if not item`
check).
-/
def Store (α : Type) : Type := List (List Char × Option (RawItem α))

/-- Dictionary lookup by key. -/
def lookupKey {α : Type} : Store α → List Char → Option (Option (RawItem α))
  | [], _ => none
  | (k, v) :: rest, k' => if k = k' then some v else lookupKey rest k'

/-- Dictionary update: replace in place, append if absent. -/
def setKey {α : Type} : Store α → List Char → Option (RawItem α) → Store α
  | [], k, v => [(k, v)]
  | (k, v) :: rest, k', v' =>
    if k = k' then (k, v') :: rest else (k, v) :: setKey rest k' v'

/-- `load_cache`: a missing or corrupt file reads as the empty store. -/
def load_cache {α : Type} (persisted : Option (Store α)) : Store α :=
  persisted.getD []

/--
`get_cached` from `core/storage.py`: load, look the key up, treat a falsy
item as a miss, and return the item's data unless it is older than `ttl`
(strict `now - ts > ttl` comparison, with `_ts` defaulting to `0`).
-/
def get_cached {α : Type} (persisted : Option (Store α)) (now : Int)
    (url : List Char) (ttl_seconds : Int) : Option α :=
  match lookupKey (load_cache persisted) url with
  | none => none
  | some none => none
  | some (some item) =>
    if now - item.ts.getD 0 > ttl_seconds then none else item.data

/--
`set_cached` from `core/storage.py`: load, bind
`{"_ts": now, "data": data}` under the key, save.  The returned store is
the newly persisted state.
-/
def set_cached {α : Type} (persisted : Option (Store α)) (now : Int)
    (url : List Char) (data : α) : Store α :=
  setKey (load_cache persisted) url (some ⟨some now, some data⟩)

/-! ## Cache reads over arbitrary deserialized content

`json.load` can return any JSON value, and `get_cached` runs Python
attribute access and subtraction on it without a `try`: `cache.get(url)`
raises `AttributeError` when the file's top-level value is not a dict,
`item.get("_ts", 0)` raises `AttributeError` when a truthy entry is not a
dict, and `_now() - ts` raises `TypeError` when `_ts` is not numeric
(`bool` counts as numeric in Python).  `JVal` models the deserialized
value and `get_cached_json` models `get_cached` with these error paths
explicit.
-/

/-- A deserialized JSON value as `json.load` may return it. -/
inductive JVal
  | jnull
  | jbool (b : Bool)
  | jnum (n : Int)
  | jstr (s : List Char)
  | jarr (elems : List JVal)
  | jobj (fields : List (List Char × JVal))

instance : Inhabited JVal := ⟨.jnull⟩

/-- The Python exception kinds `get_cached` can propagate. -/
inductive PyErr
  | attrError
  | typeError
deriving DecidableEq, Repr

/-- Python truthiness of a deserialized value. -/
def pyFalsy : JVal → Bool
  | .jnull => true
  | .jbool b => !b
  | .jnum n => n = 0
  | .jstr s => s.isEmpty
  | .jarr xs => xs.isEmpty
  | .jobj kvs => kvs.isEmpty

/-- Is the value a JSON object (a Python dict)? -/
def isObj : JVal → Bool
  | .jobj _ => true
  | _ => false

/-- Key lookup inside a JSON object's field list. -/
def jLookup : List (List Char × JVal) → List Char → Option JVal
  | [], _ => none
  | (k, v) :: rest, k' => if k = k' then some v else jLookup rest k'

/--
Python's `v.get(key, default)`: defined on dicts, `AttributeError` on
every other value.
-/
def jGetD (v : JVal) (key : List Char) (dflt : JVal) : Except PyErr JVal :=
  match v with
  | .jobj kvs => .ok ((jLookup kvs key).getD dflt)
  | _ => .error .attrError

/--
Numeric reading of a value for `_now() - ts`: ints (and bools, which are
ints in Python) work, everything else raises `TypeError`.
-/
def pyNum : JVal → Except PyErr Int
  | .jnum n => .ok n
  | .jbool b => .ok (if b then 1 else 0)
  | _ => .error .typeError

/--
`load_cache` over arbitrary content: `none` (missing file or a
`json.load` that raises) reads as `{}`; any successfully deserialized
value is returned as-is, dict or not.
-/
def load_cache_json (persisted : Option JVal) : JVal :=
  persisted.getD (.jobj [])

/--
`get_cached` from `core/storage.py` over arbitrary deserialized content:
`cache.get(url)`, the `if not item` falsy check, `item.get("_ts", 0)`,
the strict `now - ts > ttl` staleness test, then `item.get("data")`.
`.ok .jnull` is Python's `return None` (a miss); `.error` is a raised
exception.
-/
def get_cached_json (persisted : Option JVal) (now : Int) (url : List Char)
    (ttl_seconds : Int) : Except PyErr JVal :=
  match jGetD (load_cache_json persisted) url .jnull with
  | .error e => .error e
  | .ok item =>
    if pyFalsy item then .ok .jnull
    else
      match jGetD item (lc "_ts") (.jnum 0) with
      | .error e => .error e
      | .ok tsv =>
        match pyNum tsv with
        | .error e => .error e
        | .ok ts =>
          if now - ts > ttl_seconds then .ok .jnull
          else
            match jGetD item (lc "data") .jnull with
            | .error e => .error e
            | .ok d => .ok d

/-! ## Fetch coordinator (`load_all_upas` from `app.py`) -/

/-- One output row, flattening name, URL, metrics and the optional error field. -/
structure Row where
  upa : List Char
  url : List Char
  updated_at : Option (List Char) := none
  pacientes_unidade : Option Nat := none
  pacientes_regulacao : Option Nat := none
  pacientes_at_medico : Option Nat := none
  clsFields : List (Color × ClassInfo)
  erro : Option (List Char) := none
deriving DecidableEq, Repr

/--
`_flatten_row` from `app.py`: copy the scalar metrics and, per color in
fixed order, the `pacientes` / `tempo_medio` pair (`classifs.get(cor, {}) or {}`
falls back to an empty record).  A success row carries no error field.
-/
def _flatten_row (nome url : List Char) (d : ParsedMetrics) : Row :=
  { upa := nome
    url := url
    updated_at := d.updated_at
    pacientes_unidade := d.pacientes_unidade
    pacientes_regulacao := d.pacientes_regulacao
    pacientes_at_medico := d.pacientes_at_medico
    clsFields := COLORS.map fun c => (c, (lookupColor d.classificacoes c).getD ⟨none, none⟩)
    erro := none }

/-- The all-null error row built in the `except` branch of `load_all_upas`. -/
def errorRow (nome url msg : List Char) : Row :=
  { upa := nome
    url := url
    clsFields := COLORS.map fun c => (c, ⟨none, none⟩)
    erro := some msg }

/-- Strict lexicographic comparison of names (ASCII code points). -/
def strLt : List Char → List Char → Bool
  | [], [] => false
  | [], _ :: _ => true
  | _ :: _, [] => false
  | a :: as, b :: bs => if a < b then true else if b < a then false else strLt as bs

/-- Non-strict row order by target name, for the final stable sort. -/
def rowByName (a b : Row) : Prop := strLt b.upa a.upa = false

instance : DecidableRel rowByName := fun a b => by
  unfold rowByName; infer_instance

/--
`load_all_upas` from `app.py`: the worker pool yields per-target results
in completion order (`completed`, some permutation of the registry); each
result is either the flattened metrics or, if the per-target pipeline
raised, an all-null row carrying the error message; the rows are then
stably sorted by target name (`df.sort_values("upa", kind="stable")`).
The per-target pipeline (`_fetch_one`: cache check, fetch, parse, cache
write) is abstracted as a function returning metrics or an error message.
-/
def load_all_upas (completed : List (List Char × List Char))
    (pipeline : List Char → List Char → Except (List Char) ParsedMetrics) : List Row :=
  let rows := completed.map fun nu =>
    match pipeline nu.1 nu.2 with
    | .ok d => _flatten_row nu.1 nu.2 d
    | .error e => errorRow nu.1 nu.2 e
  rows.insertionSort rowByName

/-! ## Concurrent writers on the cache store

`set_cached` is a read-modify-write with no mutual exclusion: its read is
`load_cache()` and its write is `save_cache(cache)`.  Two concurrent
callers A and B are modelled by interleaving their read and write steps;
a writer's write persists the update applied to the snapshot its own read
observed.
-/

/-- One `set_cached` caller: its key, payload and write timestamp. -/
structure Writer (α : Type) where
  url : List Char
  data : α
  now : Int

/-- A scheduling step: which writer performs its read or its write. -/
inductive RwStep
  | aRead | aWrite | bRead | bWrite
deriving DecidableEq, Repr

/-- Shared persisted store plus each writer's private snapshot. -/
structure RwState (α : Type) where
  shared : Store α
  aSnap : Option (Store α)
  bSnap : Option (Store α)

/-- Execute one step: a read snapshots the shared store; a write persists
`setKey snapshot url item` computed from the writer's own snapshot. -/
def rwStep {α : Type} (A B : Writer α) (s : RwState α) : RwStep → RwState α
  | .aRead => { s with aSnap := some s.shared }
  | .aWrite =>
    match s.aSnap with
    | some snap => { s with shared := set_cached (some snap) A.now A.url A.data }
    | none => s
  | .bRead => { s with bSnap := some s.shared }
  | .bWrite =>
    match s.bSnap with
    | some snap => { s with shared := set_cached (some snap) B.now B.url B.data }
    | none => s

/-- Run a schedule of read/write steps from an initial persisted store. -/
def runSchedule {α : Type} (A B : Writer α) (steps : List RwStep) (init : Store α) : Store α :=
  (steps.foldl (rwStep A B) ⟨init, none, none⟩).shared

/-! ## Helper lemmas -/

theorem pick_plausible (texts : List (List Char)) (n : Nat)
    (h : _pick_patient_count texts = some n) : plausibleCount n = true := by
  unfold _pick_patient_count at h
  cases hfl : ((((texts.filter (· ≠ [])).map _extract_int_candidates).flatten).filter
      plausibleCount) with
  | nil => rw [hfl] at h; simp at h
  | cons a t =>
    rw [hfl] at h
    simp only [List.head?] at h
    have ha : a ∈ (((texts.filter (· ≠ [])).map _extract_int_candidates).flatten).filter
        plausibleCount := hfl ▸ List.mem_cons_self a t
    have hpa := (List.mem_filter.mp ha).2
    cases h
    exact hpa

theorem extract_nil : _extract_int_candidates [] = [] := rfl

/-! ## Claim theorems -/

/--
C4: for every input, `_pick_patient_count` returns either `none` or an
integer `n` with `n ≤ 9999` and `n` not one of the years 2020–2026 (the
result is a `Nat`, so `0 ≤ n` holds by type); in particular an input whose
only integer token is such a year yields `none`.
-/
theorem pick_patient_count_range :
    (∀ (texts : List (List Char)) (n : Nat), _pick_patient_count texts = some n →
      n ≤ 9999 ∧ n ≠ 2020 ∧ n ≠ 2021 ∧ n ≠ 2022 ∧ n ≠ 2023 ∧ n ≠ 2024 ∧
        n ≠ 2025 ∧ n ≠ 2026) ∧
    _pick_patient_count [lc "ATUALIZADO EM 2025"] = none := by
  constructor
  · intro texts n h
    have hp := pick_plausible texts n h
    unfold plausibleCount at hp
    simp only [Bool.and_eq_true, Bool.not_eq_true', Bool.or_eq_false_iff,
      decide_eq_true_eq, decide_eq_false_iff_not] at hp
    omega
  · decide

/-- Witness for C4 at the concrete input `"03 pacientes"`. -/
theorem pick_patient_count_range_witness :
    3 ≤ 9999 ∧ 3 ≠ 2020 ∧ 3 ≠ 2021 ∧ 3 ≠ 2022 ∧ 3 ≠ 2023 ∧ 3 ≠ 2024 ∧
      3 ≠ 2025 ∧ 3 ≠ 2026 :=
  pick_patient_count_range.1 [lc "03 pacientes"] 3 (by decide)

/--
C5: `HH:MM:SS`-shaped substrings are stripped before integer extraction,
so `"03 00:10:00 pacientes"` yields exactly the candidate list `[3]` and
the picked count `3` — never `10`, `0`, or any concatenation of timestamp
digits.
-/
theorem timestamp_digits_stripped :
    _extract_int_candidates (lc "03 00:10:00 pacientes") = [3] ∧
    _pick_patient_count [lc "03 00:10:00 pacientes"] = some 3 := by
  exact ⟨by decide, by decide⟩

/--
C10: candidates extracted from the `aria-label` argument come before those
of the visible-text argument in `_pick_patient_count(aria_raw, el_text)`:
if the label contributes at least one plausible integer, the first such
integer is the result, whatever the element text holds.
-/
theorem label_candidates_first (aria el : List Char) (n : Nat) (rest : List Nat)
    (h : (_extract_int_candidates aria).filter plausibleCount = n :: rest) :
    _pick_patient_count [aria, el] = some n := by
  have haria : ¬(aria = []) := by
    intro he
    rw [he, extract_nil] at h
    simp at h
  have hflat : ((([aria, el].filter (· ≠ [])).map _extract_int_candidates).flatten)
      = _extract_int_candidates aria ++ _extract_int_candidates el := by
    by_cases hel : el = []
    · subst hel
      simp [List.filter_cons, haria, extract_nil]
    · simp [List.filter_cons, haria, hel]
  unfold _pick_patient_count
  rw [hflat, List.filter_append, h]
  rfl

/-- Witness for C10: a label with the plausible integer 5 wins over text `"999"`. -/
theorem label_candidates_first_witness :
    _pick_patient_count [lc "5 pacientes", lc "999"] = some 5 :=
  label_candidates_first (lc "5 pacientes") (lc "999") 5 [] (by decide)

theorem lookupKey_setKey_self {α : Type} (s : Store α) (k : List Char)
    (v : Option (RawItem α)) : lookupKey (setKey s k v) k = some v := by
  induction s with
  | nil => simp [setKey, lookupKey]
  | cons kv rest ih =>
    obtain ⟨k', v'⟩ := kv
    by_cases h : k' = k
    · simp [setKey, lookupKey, h]
    · simp [setKey, lookupKey, h, ih]

/--
C6: writing `set_cached` at time `tW` and reading the same key at time
`tR` with no intervening write returns exactly the written value when
`tR - tW ≤ ttl` and a miss when `tR - tW > ttl` (the source compares with
strict `>`); in particular a read immediately after the write with a large
TTL round-trips the value unchanged.
-/
theorem cache_roundtrip_ttl {α : Type} (persisted : Option (Store α)) (tW tR ttl : Int)
    (url : List Char) (data : α) :
    get_cached (some (set_cached persisted tW url data)) tR url ttl =
      if tR - tW > ttl then none else some data := by
  unfold get_cached set_cached
  rw [show load_cache (some (setKey (load_cache persisted) url
      (some ⟨some tW, some data⟩))) = setKey (load_cache persisted) url
      (some ⟨some tW, some data⟩) from rfl]
  rw [lookupKey_setKey_self]
  rfl

theorem jGetD_obj (kvs : List (List Char × JVal)) (key : List Char) (dflt : JVal) :
    jGetD (.jobj kvs) key dflt = .ok ((jLookup kvs key).getD dflt) := rfl

theorem jGetD_not_obj {v : JVal} (h : isObj v = false) (key : List Char) (dflt : JVal) :
    jGetD v key dflt = .error .attrError := by
  cases v with
  | jobj kvs => simp [isObj] at h
  | jnull => rfl
  | jbool b => rfl
  | jnum n => rfl
  | jstr s => rfl
  | jarr xs => rfl

/--
C7 counterexample: `get_cached` does raise on persisted states of
unexpected shape.  On the valid-JSON store `{"u": "x"}` the call
`item.get("_ts", 0)` raises `AttributeError`; on
`{"u": {"_ts": "x", "data": 1}}` the subtraction `_now() - ts` raises
`TypeError`; on the valid-JSON non-dict file content `[1]` the call
`cache.get(url)` raises `AttributeError` — in each case the error
propagates instead of reading as a miss, refuting "get never raises" for
malformed persisted state.
-/
theorem cache_get_raises_on_malformed :
    get_cached_json (some (.jobj [(lc "u", .jstr (lc "x"))])) 0 (lc "u") 120 =
      .error .attrError ∧
    get_cached_json (some (.jobj [(lc "u",
      .jobj [(lc "_ts", .jstr (lc "x")), (lc "data", .jnum 1)])])) 0 (lc "u") 120 =
      .error .typeError ∧
    get_cached_json (some (.jarr [.jnum 1])) 0 (lc "u") 120 = .error .attrError :=
  ⟨rfl, rfl, rfl⟩

/--
C7 (amended): `get_cached` fails soft — returns a miss rather than
raising — for a missing or undeserializable file, a key absent from a
dict store, a falsy entry, and a dict entry whose `data` field is
missing; but it propagates an error for persisted content of unexpected
shape: a truthy non-dict entry (`AttributeError` from `item.get`), a
non-numeric `_ts` value (`TypeError` from `_now() - ts`), and a top-level
deserialized value that is not a dict (`AttributeError` from
`cache.get`).
-/
theorem cache_get_soft_and_error_paths :
    (∀ (now ttl : Int) (url : List Char),
      get_cached_json none now url ttl = .ok .jnull) ∧
    (∀ (kvs : List (List Char × JVal)) (now ttl : Int) (url : List Char),
      jLookup kvs url = none →
      get_cached_json (some (.jobj kvs)) now url ttl = .ok .jnull) ∧
    (∀ (kvs : List (List Char × JVal)) (now ttl : Int) (url : List Char) (item : JVal),
      jLookup kvs url = some item → pyFalsy item = true →
      get_cached_json (some (.jobj kvs)) now url ttl = .ok .jnull) ∧
    (∀ (kvs fields : List (List Char × JVal)) (t : Int) (now ttl : Int) (url : List Char),
      jLookup kvs url = some (.jobj fields) →
      jLookup fields (lc "_ts") = some (.jnum t) →
      jLookup fields (lc "data") = none →
      get_cached_json (some (.jobj kvs)) now url ttl = .ok .jnull) ∧
    (∀ (kvs : List (List Char × JVal)) (item : JVal) (now ttl : Int) (url : List Char),
      jLookup kvs url = some item → pyFalsy item = false → isObj item = false →
      get_cached_json (some (.jobj kvs)) now url ttl = .error .attrError) ∧
    (∀ (kvs fields : List (List Char × JVal)) (tsv : JVal) (now ttl : Int)
        (url : List Char),
      jLookup kvs url = some (.jobj fields) →
      jLookup fields (lc "_ts") = some tsv → pyNum tsv = .error .typeError →
      get_cached_json (some (.jobj kvs)) now url ttl = .error .typeError) ∧
    (∀ (v : JVal) (now ttl : Int) (url : List Char), isObj v = false →
      get_cached_json (some v) now url ttl = .error .attrError) := by
  refine ⟨fun now ttl url => rfl, ?_, ?_, ?_, ?_, ?_, ?_⟩
  · intro kvs now ttl url h
    simp [get_cached_json, load_cache_json, jGetD_obj, h, pyFalsy]
  · intro kvs now ttl url item h hf
    simp [get_cached_json, load_cache_json, jGetD_obj, h, hf]
  · intro kvs fields t now ttl url h hts hdata
    cases fields with
    | nil => simp [jLookup] at hts
    | cons fv fs =>
      simp [get_cached_json, load_cache_json, jGetD_obj, h, hts, hdata, pyFalsy, pyNum]
  · intro kvs item now ttl url h hf hobj
    simp [get_cached_json, load_cache_json, jGetD_obj, h, hf, jGetD_not_obj hobj]
  · intro kvs fields tsv now ttl url h hts hnum
    cases fields with
    | nil => simp [jLookup] at hts
    | cons fv fs =>
      simp [get_cached_json, load_cache_json, jGetD_obj, h, hts, hnum, pyFalsy]
  · intro v now ttl url hobj
    simp [get_cached_json, load_cache_json, jGetD_not_obj hobj]

/-- Witness for C7 (amended) at concrete stores exercising each soft and
each raising case. -/
theorem cache_get_soft_and_error_paths_witness :
    get_cached_json (some (.jobj [(lc "a", .jnum 1)])) 0 (lc "u") 120 = .ok .jnull ∧
    get_cached_json (some (.jobj [(lc "u", .jnull)])) 0 (lc "u") 120 = .ok .jnull ∧
    get_cached_json (some (.jobj [(lc "u",
      .jobj [(lc "_ts", .jnum 0)])])) 0 (lc "u") 120 = .ok .jnull ∧
    get_cached_json (some (.jobj [(lc "u", .jnum 7)])) 0 (lc "u") 120 =
      .error .attrError ∧
    get_cached_json (some (.jobj [(lc "u",
      .jobj [(lc "_ts", .jnull)])])) 0 (lc "u") 120 = .error .typeError ∧
    get_cached_json (some (.jstr (lc "x"))) 0 (lc "u") 120 = .error .attrError :=
  ⟨cache_get_soft_and_error_paths.2.1 _ 0 120 (lc "u") rfl,
   cache_get_soft_and_error_paths.2.2.1 _ 0 120 (lc "u") .jnull rfl rfl,
   cache_get_soft_and_error_paths.2.2.2.1 _ _ 0 0 120 (lc "u") rfl rfl rfl,
   cache_get_soft_and_error_paths.2.2.2.2.1 _ (.jnum 7) 0 120 (lc "u") rfl rfl rfl,
   cache_get_soft_and_error_paths.2.2.2.2.2.1 _ _ .jnull 0 120 (lc "u") rfl rfl rfl,
   cache_get_soft_and_error_paths.2.2.2.2.2.2 (.jstr (lc "x")) 0 120 (lc "u") rfl⟩

/--
C3 counterexample: the claim says a non-2xx status outside
{429, 502, 503, 504} (here 404) terminates the fetch immediately as a
terminal error without consuming further retry attempts; in the code the
`HTTPError` raised by `raise_for_status` is caught by the loop's generic
handler, which retries, so a later 200 response still succeeds.
-/
theorem nonretryable_status_still_retried :
    fetch_html_requests [.resp 404 [], .resp 200 (lc "ok")] 3 =
      .ok ⟨200, lc "ok"⟩ ∧
    fetch_html_requests [.resp 404 []] 3 =
      .error ⟨404, some (.httpStatus 404)⟩ := by
  exact ⟨rfl, rfl⟩

/--
C3 (amended): the statuses 429/502/503/504 trigger another attempt
without recording an exception; every other status `>= 400` also triggers
another attempt, recording the HTTP-status error as the last exception; a
status below 400 outside the retry set returns successfully; a raising
GET records the exception and retries; and exhausting the attempts is a
terminal error carrying the last status and last exception.
-/
theorem fetch_retry_behaviour :
    (∀ (rest : List Attempt) (st : ReqState) (code : Nat) (body : List Char),
      retryableStatus code = true →
      fetchGo (.resp code body :: rest) st =
        fetchGo rest { st with last_status := code }) ∧
    (∀ (rest : List Attempt) (st : ReqState) (code : Nat) (body : List Char),
      retryableStatus code = false → 400 ≤ code →
      fetchGo (.resp code body :: rest) st =
        fetchGo rest ⟨code, some (.httpStatus code)⟩) ∧
    (∀ (rest : List Attempt) (st : ReqState) (code : Nat) (body : List Char),
      retryableStatus code = false → code < 400 →
      fetchGo (.resp code body :: rest) st = .ok ⟨code, body⟩) ∧
    (∀ (rest : List Attempt) (st : ReqState) (e : ExcT),
      fetchGo (.exc e :: rest) st = fetchGo rest { st with last_exc := some e }) ∧
    (∀ st : ReqState, fetchGo [] st = .error st) := by
  refine ⟨?_, ?_, ?_, fun rest st e => rfl, fun st => rfl⟩
  · intro rest st code body h
    simp [fetchGo, h]
  · intro rest st code body h h4
    simp [fetchGo, h, h4]
  · intro rest st code body h h4
    simp only [fetchGo, h, if_false, Bool.false_eq_true]
    rw [if_neg (by omega)]

/-- Witness for C3 (amended) at concrete statuses 429, 404 and 200. -/
theorem fetch_retry_behaviour_witness :
    fetchGo [.resp 429 []] {} = fetchGo [] ⟨429, none⟩ ∧
    fetchGo [.resp 404 []] {} = fetchGo [] ⟨404, some (.httpStatus 404)⟩ ∧
    fetchGo [.resp 200 (lc "ok")] {} = .ok ⟨200, lc "ok"⟩ :=
  ⟨fetch_retry_behaviour.1 [] {} 429 [] (by decide),
   fetch_retry_behaviour.2.1 [] {} 404 [] (by decide) (by omega),
   fetch_retry_behaviour.2.2.1 [] {} 200 (lc "ok") (by decide) (by omega)⟩

/-- The key-completeness invariant of the `classificacoes` dictionary. -/
def keysOK (l : List (Color × ClassInfo)) : Prop :=
  ∀ c : Color, (lookupColor l c).isSome = true

theorem lookupColor_setColor (l : List (Color × ClassInfo)) (c' : Color) (i' : ClassInfo)
    (c : Color) :
    lookupColor (setColor l c' i') c = if c' = c then some i' else lookupColor l c := by
  induction l with
  | nil => simp [setColor, lookupColor]
  | cons kv rest ih =>
    obtain ⟨k, v⟩ := kv
    by_cases hk : k = c'
    · subst hk
      by_cases hc : k = c <;> simp [setColor, lookupColor, hc]
    · by_cases hkc : k = c
      · subst hkc
        have hcc : ¬(c' = k) := fun he => hk he.symm
        simp [setColor, lookupColor, hk, hcc, lookupColor]
      · simp [setColor, lookupColor, hk, hkc, ih]

theorem keysOK_init : keysOK initClassif := by
  intro c
  cases c <;> rfl

theorem keysOK_setColor {l : List (Color × ClassInfo)} (h : keysOK l) (c' : Color)
    (i' : ClassInfo) : keysOK (setColor l c' i') := by
  intro c
  rw [lookupColor_setColor]
  by_cases hc : c' = c
  · simp [hc]
  · simpa [hc] using h c

theorem keysOK_classifyNode {out : ParsedMetrics} {nd : Node}
    (h : keysOK out.classificacoes) : keysOK (classifyNode out nd).classificacoes := by
  dsimp only [classifyNode]
  split
  · exact h
  · split
    · exact h
    · exact keysOK_setColor h _ _

theorem keysOK_processNode {out : ParsedMetrics} {nd : Node}
    (h : keysOK out.classificacoes) : keysOK (processNode out nd).classificacoes := by
  unfold processNode
  split
  · exact h
  · split
    · exact h
    · split
      · exact h
      · exact keysOK_classifyNode h

theorem keysOK_fallbackColor {bt : List Char} {out : ParsedMetrics} {c : Color}
    (h : keysOK out.classificacoes) : keysOK (fallbackColor bt out c).classificacoes := by
  dsimp only [fallbackColor]
  split
  · exact h
  · split
    · exact h
    · split
      · exact keysOK_setColor h _ _
      · exact h

theorem foldl_preserve {σ β : Type} (P : σ → Prop) (f : σ → β → σ)
    (hf : ∀ s b, P s → P (f s b)) :
    ∀ (l : List β) (s : σ), P s → P (l.foldl f s) := by
  intro l
  induction l with
  | nil => intro s hs; exact hs
  | cons x xs ih => intro s hs; exact ih _ (hf s x hs)

/--
C2: for every input document — empty or arbitrary — the parser returns
(it is a total function: no execution path raises) and its
`classificacoes` mapping has an entry for each of the five colors; the
entry is a record with both a `pacientes` and a `tempo_medio` field,
possibly null, so absent data is null fields rather than a missing key.
-/
theorem parse_always_fully_shaped (doc : Doc) (c : Color) :
    ∃ info : ClassInfo,
      lookupColor (parse_upa_dashboard doc).classificacoes c = some info := by
  have h : keysOK (parse_upa_dashboard doc).classificacoes := by
    unfold parse_upa_dashboard
    dsimp only
    exact foldl_preserve (fun m : ParsedMetrics => keysOK m.classificacoes) _
      (fun s b hs => keysOK_fallbackColor hs) COLORS _
      (foldl_preserve (fun m : ParsedMetrics => keysOK m.classificacoes) _
        (fun s b hs => keysOK_processNode hs) _ _ keysOK_init)
  exact Option.isSome_iff_exists.mp (h c)

/-- Effective setter condition of the `pacientes_unidade` branch. -/
def selUnidade (nd : Node) : Bool := trigUnidade nd

/-- Effective setter condition of the `pacientes_regulacao` branch. -/
def selRegulacao (nd : Node) : Bool := !trigUnidade nd && trigRegulacao nd

/-- Effective setter condition of the `pacientes_at_medico` branch. -/
def selAtMedico (nd : Node) : Bool :=
  !trigUnidade nd && !trigRegulacao nd && trigAtMedico nd

theorem classifyNode_scalars (out : ParsedMetrics) (nd : Node) :
    (classifyNode out nd).pacientes_unidade = out.pacientes_unidade ∧
    (classifyNode out nd).pacientes_regulacao = out.pacientes_regulacao ∧
    (classifyNode out nd).pacientes_at_medico = out.pacientes_at_medico := by
  dsimp only [classifyNode]
  split
  · exact ⟨rfl, rfl, rfl⟩
  · split
    · exact ⟨rfl, rfl, rfl⟩
    · exact ⟨rfl, rfl, rfl⟩

theorem processNode_unidade (out : ParsedMetrics) (nd : Node) :
    (processNode out nd).pacientes_unidade =
      (if selUnidade nd then _pick_patient_count [nd.aria, nd.text]
       else out.pacientes_unidade) := by
  unfold processNode selUnidade
  by_cases h1 : trigUnidade nd
  · simp [h1]
  · simp only [h1, if_false, Bool.false_eq_true]
    split
    · rfl
    · split
      · rfl
      · exact (classifyNode_scalars out nd).1

theorem processNode_regulacao (out : ParsedMetrics) (nd : Node) :
    (processNode out nd).pacientes_regulacao =
      (if selRegulacao nd then _pick_patient_count [nd.aria, nd.text]
       else out.pacientes_regulacao) := by
  unfold processNode selRegulacao
  by_cases h1 : trigUnidade nd
  · simp [h1]
  · by_cases h2 : trigRegulacao nd
    · simp [h1, h2]
    · simp only [h1, h2, if_false, Bool.false_eq_true, Bool.not_false, Bool.true_and,
        Bool.and_false]
      split
      · rfl
      · exact (classifyNode_scalars out nd).2.1

theorem processNode_at_medico (out : ParsedMetrics) (nd : Node) :
    (processNode out nd).pacientes_at_medico =
      (if selAtMedico nd then _pick_patient_count [nd.aria, nd.text]
       else out.pacientes_at_medico) := by
  unfold processNode selAtMedico
  by_cases h1 : trigUnidade nd
  · simp [h1]
  · by_cases h2 : trigRegulacao nd
    · simp [h1, h2]
    · by_cases h3 : trigAtMedico nd
      · simp [h1, h2, h3]
      · simp only [h1, h2, h3, if_false, Bool.false_eq_true, Bool.not_false,
          Bool.true_and, Bool.and_false]
        exact (classifyNode_scalars out nd).2.2

theorem foldl_last_match (g : ParsedMetrics → Option Nat) (sel : Node → Bool)
    (val : Node → Option Nat)
    (hstep : ∀ out nd, g (processNode out nd) =
      (if sel nd then val nd else g out)) :
    ∀ (nodes : List Node) (init : ParsedMetrics),
      g (nodes.foldl processNode init) =
        ((nodes.filter sel).getLast?.elim (g init) val) := by
  intro nodes
  induction nodes with
  | nil => intro init; rfl
  | cons x xs ih =>
    intro init
    rw [List.foldl_cons, ih]
    by_cases hx : sel x = true
    · rw [List.filter_cons_of_pos hx]
      cases hfl : xs.filter sel with
      | nil =>
        simp [hstep init x, hx]
      | cons y ys =>
        rw [List.getLast?_cons_cons]
        have hsome : ((y :: ys).getLast?).isSome = true := by
          rw [List.getLast?_isSome]
          simp
        obtain ⟨z, hz⟩ := Option.isSome_iff_exists.mp hsome
        rw [hz]
        rfl
    · rw [List.filter_cons_of_neg (by simpa using hx)]
      rw [hstep init x]
      simp [hx]

theorem foldl_keep {σ β : Type} (g : σ → Option Nat) (f : σ → β → σ)
    (hf : ∀ s b, g (f s b) = g s) :
    ∀ (l : List β) (s : σ), g (l.foldl f s) = g s := by
  intro l
  induction l with
  | nil => intro s; rfl
  | cons x xs ih => intro s; rw [List.foldl_cons, ih, hf]

theorem fallbackColor_scalars (bt : List Char) (out : ParsedMetrics) (c : Color) :
    (fallbackColor bt out c).pacientes_unidade = out.pacientes_unidade ∧
    (fallbackColor bt out c).pacientes_regulacao = out.pacientes_regulacao ∧
    (fallbackColor bt out c).pacientes_at_medico = out.pacientes_at_medico := by
  dsimp only [fallbackColor]
  split
  · exact ⟨rfl, rfl, rfl⟩
  · split
    · exact ⟨rfl, rfl, rfl⟩
    · split
      · exact ⟨rfl, rfl, rfl⟩
      · exact ⟨rfl, rfl, rfl⟩

/--
C1 counterexample: two nodes in document order both match
`PACIENTES NA UNIDADE`; the first sets the field to 5, the second — whose
numeric extraction yields null — resets it to null, so the final result is
null rather than the first non-null value the claim requires.
-/
theorem scalar_overwrite_counterexample :
    (parse_upa_dashboard ⟨[⟨lc "PACIENTES NA UNIDADE 5", []⟩,
        ⟨lc "PACIENTES NA UNIDADE", []⟩], []⟩).pacientes_unidade = none ∧
    (parse_upa_dashboard ⟨[⟨lc "PACIENTES NA UNIDADE 5", []⟩], []⟩).pacientes_unidade =
      some 5 := by
  exact ⟨by decide, by decide⟩

/--
C1 (amended): the three scalar metrics carry no first-non-null guard: each
equals the numeric extraction of the LAST node matching its trigger in the
attribute-node scan (later matching nodes overwrite unconditionally, a
null extraction included), and is null when no node matches.  The
first-non-null accumulation applies only to the per-color classification
fields.
-/
theorem scalar_metrics_last_match_wins (doc : Doc) :
    (parse_upa_dashboard doc).pacientes_unidade =
      (((ariaNodes doc.nodes).filter selUnidade).getLast?.elim none
        (fun nd => _pick_patient_count [nd.aria, nd.text])) ∧
    (parse_upa_dashboard doc).pacientes_regulacao =
      (((ariaNodes doc.nodes).filter selRegulacao).getLast?.elim none
        (fun nd => _pick_patient_count [nd.aria, nd.text])) ∧
    (parse_upa_dashboard doc).pacientes_at_medico =
      (((ariaNodes doc.nodes).filter selAtMedico).getLast?.elim none
        (fun nd => _pick_patient_count [nd.aria, nd.text])) := by
  unfold parse_upa_dashboard
  dsimp only
  refine ⟨?_, ?_, ?_⟩
  · rw [foldl_keep (fun m => m.pacientes_unidade) _
      (fun s b => (fallbackColor_scalars doc.bigText s b).1) COLORS _]
    exact foldl_last_match _ selUnidade _ (fun out nd => processNode_unidade out nd)
      (ariaNodes doc.nodes) _
  · rw [foldl_keep (fun m => m.pacientes_regulacao) _
      (fun s b => (fallbackColor_scalars doc.bigText s b).2.1) COLORS _]
    exact foldl_last_match _ selRegulacao _ (fun out nd => processNode_regulacao out nd)
      (ariaNodes doc.nodes) _
  · rw [foldl_keep (fun m => m.pacientes_at_medico) _
      (fun s b => (fallbackColor_scalars doc.bigText s b).2.2) COLORS _]
    exact foldl_last_match _ selAtMedico _ (fun out nd => processNode_at_medico out nd)
      (ariaNodes doc.nodes) _

/--
C8: for any registry and any completion order of the worker pool, the
coordinator returns exactly one row per target and never raises (the
embedding is total): a target whose pipeline raises contributes a row
with every metric field null plus the error message, and a target whose
pipeline succeeds contributes its flattened metrics with no error value;
no target's failure removes or alters another target's row.
-/
theorem run_all_partial_failure_isolation
    (items completed : List (List Char × List Char))
    (pipeline : List Char → List Char → Except (List Char) ParsedMetrics)
    (hperm : completed.Perm items) :
    (load_all_upas completed pipeline).length = items.length ∧
    ∀ nu ∈ items, ∃ r ∈ load_all_upas completed pipeline,
      r.upa = nu.1 ∧ r.url = nu.2 ∧
      (∀ d, pipeline nu.1 nu.2 = .ok d →
        r = _flatten_row nu.1 nu.2 d ∧ r.erro = none) ∧
      (∀ e, pipeline nu.1 nu.2 = .error e →
        r = errorRow nu.1 nu.2 e ∧ r.erro = some e ∧ r.updated_at = none ∧
        r.pacientes_unidade = none ∧ r.pacientes_regulacao = none ∧
        r.pacientes_at_medico = none ∧
        ∀ ci ∈ r.clsFields, ci.2 = (⟨none, none⟩ : ClassInfo)) := by
  have hsort : (load_all_upas completed pipeline).Perm
      (completed.map fun nu =>
        match pipeline nu.1 nu.2 with
        | .ok d => _flatten_row nu.1 nu.2 d
        | .error e => errorRow nu.1 nu.2 e) := by
    exact List.perm_insertionSort _ _
  constructor
  · rw [hsort.length_eq, List.length_map, hperm.length_eq]
  · intro nu hmem
    have hmemC : nu ∈ completed := hperm.mem_iff.mpr hmem
    cases hpl : pipeline nu.1 nu.2 with
    | ok d =>
      refine ⟨_flatten_row nu.1 nu.2 d, ?_, rfl, rfl, ?_, ?_⟩
      · exact hsort.mem_iff.mpr (List.mem_map.mpr ⟨nu, hmemC, by rw [hpl]⟩)
      · intro d' hd'
        cases hd'
        exact ⟨rfl, rfl⟩
      · intro e he
        cases he
    | error e =>
      refine ⟨errorRow nu.1 nu.2 e, ?_, rfl, rfl, ?_, ?_⟩
      · exact hsort.mem_iff.mpr (List.mem_map.mpr ⟨nu, hmemC, by rw [hpl]⟩)
      · intro d' hd'
        cases hd'
      · intro e' he
        cases he
        refine ⟨rfl, rfl, rfl, rfl, rfl, rfl, ?_⟩
        intro ci hci
        obtain ⟨c, _, hc⟩ := List.mem_map.mp hci
        rw [← hc]

/-- A concrete two-target pipeline failing for target `"a"` only. -/
def pipeC : List Char → List Char → Except (List Char) ParsedMetrics :=
  fun n _ =>
    if n = lc "a" then .error (lc "falha") else .ok (parse_upa_dashboard ⟨[], []⟩)

/-- Witness for C8 on a two-target registry collected in reversed order. -/
theorem run_all_partial_failure_isolation_witness :
    (load_all_upas [(lc "a", lc "u2"), (lc "b", lc "u1")] pipeC).length =
      ([(lc "b", lc "u1"), (lc "a", lc "u2")] : List (List Char × List Char)).length :=
  (run_all_partial_failure_isolation [(lc "b", lc "u1"), (lc "a", lc "u2")]
    [(lc "a", lc "u2"), (lc "b", lc "u1")] pipeC (by decide)).1

/--
C9: `set_cached` is an unsynchronized read-modify-write
(`load_cache` then `save_cache`); under the interleaving
read-A, read-B, write-A, write-B on an empty store, writer A's completed
update for key `"a"` is absent from the final persisted store, while both
serialized orders retain it — so concurrent `set` calls are not
equivalent to any serialization, contradicting the claim.
-/
theorem set_cached_lost_update :
    lookupKey (runSchedule (⟨lc "a", 1, 5⟩ : Writer Nat) ⟨lc "b", 2, 6⟩
      [.aRead, .bRead, .aWrite, .bWrite] []) (lc "a") = none ∧
    lookupKey (runSchedule (⟨lc "a", 1, 5⟩ : Writer Nat) ⟨lc "b", 2, 6⟩
      [.aRead, .aWrite, .bRead, .bWrite] []) (lc "a") =
        some (some ⟨some 5, some 1⟩) ∧
    lookupKey (runSchedule (⟨lc "a", 1, 5⟩ : Writer Nat) ⟨lc "b", 2, 6⟩
      [.bRead, .bWrite, .aRead, .aWrite] []) (lc "a") =
        some (some ⟨some 5, some 1⟩) := by
  exact ⟨by decide, by decide, by decide⟩

end Upa
